import Mathlib

/-!
Shallow embedding of the newscout_web frontend controllers
(DashboardApp/Group.js, NewsApp/Bookmark.js,
DashboardApp/SubscriptionDetails.js).

JavaScript values that flow through the controllers are modelled with
explicit optional fields: a Lean `none` stands for a JS `undefined`
(absent key), while the explicit `FieldVal.nullV` constructor stands for
a JS `null` where the two are distinguished by the source (strict
`!== null` checks).  Fallible code (JS expressions that would throw a
TypeError, such as calling `.map` on a non-array) is modelled with
`Option`.  Transport calls, toasts, timers and DOM manipulation are
modelled as an explicit effect list returned next to the new state; the
effect constructor records which response handler the request feeds,
mirroring the callback passed to the request helper in the source.
-/

namespace Newscout

/-- Model of a JS record with the keys the Group controller touches on
category items, campaign objects and select options: server objects carry
id and name, select-option dictionaries carry value, label and name. -/
structure JsObj where
  id : Option Nat := none
  value : Option Nat := none
  label : Option String := none
  name : Option String := none
deriving DecidableEq, Repr

/-- A JS value stored under a field key of the Group form state. -/
inductive FieldVal where
  | nullV : FieldVal
  | numV (n : Nat) : FieldVal
  | boolV (b : Bool) : FieldVal
  | strV (s : String) : FieldVal
  | objV (o : JsObj) : FieldVal
  | arrV (l : List JsObj) : FieldVal
  | arrNumV (l : List Nat) : FieldVal
deriving DecidableEq, Repr

/-- JS truthiness of a `FieldVal`: arrays and objects are always truthy,
numbers are truthy unless 0, strings unless empty, null is falsy. -/
def fvTruthy : FieldVal → Bool
  | .nullV => false
  | .numV n => n ≠ 0
  | .boolV b => b
  | .strV s => s ≠ ""
  | .objV _ => true
  | .arrV _ => true
  | .arrNumV _ => true

/-- JS truthiness of a possibly-absent field value (undefined is falsy). -/
def optTruthy : Option FieldVal → Bool
  | none => false
  | some v => fvTruthy v

/-- JS truthiness of a possibly-absent string (cookie value or URL). -/
def strTruthy : Option String → Bool
  | none => false
  | some s => s ≠ ""

/-- A row of the Group collection, and equally the FormFields mapping:
in the source the edit handler assigns the row object itself to
`state.fields`, so the two share one record shape.  `none` in a field
means the key is absent. -/
structure RowRec where
  id : Option Nat := none
  category : Option FieldVal := none
  campaign : Option FieldVal := none
  is_active : Option FieldVal := none
deriving DecidableEq, Repr

/-- The validation error mapping produced by `handleValidation`. -/
structure GErrors where
  category : Option String := none
  campaign : Option String := none
deriving DecidableEq, Repr

/-- The body of the PUT issued by `submitRow`. -/
structure PutBody where
  campaign : Option Nat := none
  category : List (Option Nat) := []
  id : Option Nat := none
  is_active : Option FieldVal := none
deriving DecidableEq, Repr

/-- URL constant imported from utils/Constants.js, which is outside the
provided sources; modelled as a fixed endpoint string (claims depend only
on how the controllers extend it, never on its exact value). -/
def GROUP_URL : String := "/api/v1/groups/"

/-- URL constant from utils/Constants.js, modelled as a fixed string. -/
def ARTICLE_BOOKMARK_URL : String := "/api/v1/article/bookmark/"

/-- URL constant from utils/Constants.js, modelled as a fixed string. -/
def ALL_ARTICLE_BOOKMARK_URL : String := "/api/v1/bookmark-articles/"

/-- URL constant from utils/Constants.js, modelled as a fixed string. -/
def MENUS_URL : String := "/api/v1/menus/"

/-- URL constant from utils/Constants.js, modelled as a fixed string. -/
def SUBSCRIPTION_URL : String := "/api/v1/subscription/"

/-- String form of a possibly-absent numeric id as JS string
concatenation renders it (undefined prints as the text undefined). -/
def idString : Option Nat → String
  | some n => toString n
  | none => "undefined"

/-- Observable effects a handler emits: each transport constructor is
tagged with the response callback the source passes to the request
helper, plus toasts, timers, redirects and DOM row removal. -/
inductive Effect where
  | getGroupsReq (url : String) : Effect
  | getCampCatReq (url : String) : Effect
  | putGroupReq (url : String) (body : PutBody) : Effect
  | postGroupReq (url : String) (fields : RowRec) : Effect
  | deleteGroupReq (url : String) : Effect
  | getMenusReq (url : String) : Effect
  | getBookmarksReq (url : String) : Effect
  | postBookmarkReq (url : String) (articleId : Nat) : Effect
  | postSubscriptionReq (url : String) (subsType idStr autoRenew : String) : Effect
  | notify (msg level : String) : Effect
  | timedRemoveTableRow (delayMs rowId : Nat) : Effect
  | reloadPage : Effect
  | redirect (url : String) : Effect
  | scheduleSubmitClose (delayMs : Nat) (cleanResults : Bool) : Effect
  | timedSetLoadingFalse (delayMs : Nat) : Effect
  | themeDom (dark : Bool) : Effect
deriving DecidableEq, Repr

/-- The React state of the Group component (Group.js constructor). -/
structure GroupState where
  modal : Bool := false
  fields : RowRec := {}
  errors : GErrors := {}
  rows : List (Nat × Bool) := []
  formSuccess : Bool := false
  categories : List JsObj := []
  campaigns : List JsObj := []
  results : List RowRec := []
  next : Option String := none
  previous : Option String := none
  loading : Bool := false
  q : String := ""
  page : Nat := 0
  isSideOpen : Bool := true
  isChecked : Bool := false
deriving DecidableEq, Repr

/-- Assignment into a JS object used as a map (rows object keyed by row
id): overwrite the entry when the key exists, append it otherwise. -/
def setKey (m : List (Nat × Bool)) (k : Nat) (v : Bool) : List (Nat × Bool) :=
  if m.any (fun p => p.1 = k) then
    m.map (fun p => if p.1 = k then (k, v) else p)
  else
    m ++ [(k, v)]

/-- Lookup in the rows map; a missing key reads as JS undefined, which
the render treats as false. -/
def getKey (m : List (Nat × Bool)) (k : Nat) : Bool :=
  match m.find? (fun p => p.1 = k) with
  | some p => p.2
  | none => false

/-- Group.js handleValidation: flags each of the two required fields
whose current value is JS-falsy, returning the error mapping it stores
in state and the boolean validity it returns. -/
def handleValidation (fields : RowRec) : GErrors × Bool :=
  let catOk := optTruthy fields.category
  let campOk := optTruthy fields.campaign
  ({ category := if catOk then none else some "This fields is required",
     campaign := if campOk then none else some "This fields is required" },
   catOk && campOk)

/-- Group.js handleQueryChange: stores the search box text. -/
def handleQueryChange (st : GroupState) (value : String) : GroupState :=
  { st with q := value }

/-- Group.js handleKeyPress: on Enter, clears the collection and issues
a filtered collection GET handled by getGroupsData. -/
def handleKeyPress (st : GroupState) (key : String) : GroupState × List Effect :=
  if key = "Enter" then
    ({ st with results := [] },
     [Effect.getGroupsReq (GROUP_URL ++ "?q=" ++ st.q)])
  else
    (st, [])

/-- Shape of a collection response body as getGroupsData inspects it:
either the paginated object with results and cursors, or a bare array
(in which case the handler keeps the current rows and the cursor reads
come back undefined). -/
inductive Body where
  | page (results : List RowRec) (next previous : Option String) : Body
  | arr (items : List RowRec) : Body
deriving DecidableEq, Repr

/-- Group.js getGroupsData: appends the result page to the collection
and stores the new cursors, clearing the loading flag. -/
def getGroupsData (st : GroupState) (body : Body) : GroupState :=
  match body with
  | .page rs nx pv =>
      { st with results := st.results ++ rs, next := nx, previous := pv,
                loading := false }
  | .arr _ =>
      { st with next := none, previous := none, loading := false }

/-- Group.js getGroups: one unfiltered collection GET. -/
def getGroups (st : GroupState) : GroupState × List Effect :=
  (st, [Effect.getGroupsReq GROUP_URL])

/-- Group.js getNext: sets the in-flight flag, bumps the page counter
and issues one GET for the stored next cursor. -/
def getNext (st : GroupState) : GroupState × List Effect :=
  ({ st with loading := true, page := st.page + 1 },
   [Effect.getGroupsReq (st.next.getD "")])

/-- Group.js handleScroll: when the window is scrolled to the bottom
and no load is in flight and the next cursor is truthy, fires getNext;
otherwise does nothing. -/
def handleScroll (st : GroupState) (atBottom : Bool) : GroupState × List Effect :=
  if atBottom then
    if (!st.loading) && strTruthy st.next then getNext st else (st, [])
  else
    (st, [])

/-- JS short-circuit or on two possibly-absent numbers, as in the
expression item.id or item.value of editRow (a present 0 is falsy and
falls through to the second operand). -/
def jsOrNat (a b : Option Nat) : Option Nat :=
  match a with
  | some n => if n = 0 then b else some n
  | none => b

/-- Reading the id key off an arbitrary field value, as JS property
access does: only an object yields one, everything else is undefined. -/
def fvId : Option FieldVal → Option Nat
  | some (.objV o) => o.id
  | _ => none

/-- Reading the name key off an arbitrary field value. -/
def fvName : Option FieldVal → Option String
  | some (.objV o) => o.name
  | _ => none

/-- Reading the value key off an arbitrary field value. -/
def fvValue : Option FieldVal → Option Nat
  | some (.objV o) => o.value
  | _ => none

/-- The category select-option dictionary editRow builds from a stored
category item (a fresh object holding only value, label and name). -/
def normCatItem (o : JsObj) : JsObj :=
  { value := jsOrNat o.id o.value, label := o.name, name := o.name }

/-- Group.js editRow, restricted to its in-place rewrite of the row
object it aliases: the category list is mapped to select-option
dictionaries (a strict null comparison guards the map, so an absent or
non-array category throws, modelled as none), and the campaign object is
replaced by the head of a freshly built option list (undefined when the
campaign was null or absent). -/
def editRowRec (row : RowRec) : Option RowRec :=
  let selCat? : Option (List JsObj) :=
    match row.category with
    | some .nullV => some []
    | some (.arrV items) => some (items.map normCatItem)
    | some (.arrNumV ns) =>
        some (ns.map (fun _ => ({ } : JsObj)))
    | _ => none
  let campArr : List JsObj :=
    match row.campaign with
    | none => []
    | some .nullV => []
    | some v =>
        [{ value := fvId (some v), label := fvName (some v),
           name := fvName (some v) }]
  selCat?.map (fun selCat =>
    { row with category := some (.arrV selCat),
               campaign := (campArr.get? 0).map .objV })

/-- Group.js editRow: fetches the row at the index attribute, rewrites
its category and campaign in place (the row object in results and the
new FormFields are one and the same object), and marks the data-id row
as in edit mode.  Out-of-range index or a malformed row throws. -/
def editRow (st : GroupState) (index dataindex : Nat) : Option GroupState :=
  match st.results.get? index with
  | none => none
  | some row =>
      (editRowRec row).map (fun newRow =>
        { st with rows := setKey st.rows dataindex true,
                  results := st.results.set index newRow,
                  fields := newRow })

/-- Group.js cancelRow: only clears the in-edit flag for the data-id;
FormFields and the collection are not touched. -/
def cancelRow (st : GroupState) (index dataindex : Nat) : GroupState :=
  let _ := index
  { st with rows := setKey st.rows dataindex false }

/-- Group.js submitRow: re-runs validation (storing the errors), and on
success maps the pending category options to their value keys and issues
exactly one PUT of the full field set to the entity URL.  Calling map on
a non-array category value throws, modelled as none. -/
def submitRow (st : GroupState) : Option (GroupState × List Effect) :=
  let pr := handleValidation st.fields
  let st1 := { st with errors := pr.1 }
  if pr.2 then
    match st1.fields.category with
    | some (.arrV items) =>
        some (st1,
          [Effect.putGroupReq (GROUP_URL ++ idString st1.fields.id ++ "/")
            { campaign := fvValue st1.fields.campaign,
              category := items.map JsObj.value,
              id := st1.fields.id,
              is_active := st1.fields.is_active }])
    | some (.arrNumV ns) =>
        some (st1,
          [Effect.putGroupReq (GROUP_URL ++ idString st1.fields.id ++ "/")
            { campaign := fvValue st1.fields.campaign,
              category := ns.map (fun _ => none),
              id := st1.fields.id,
              is_active := st1.fields.is_active }])
    | _ => none
  else
    some (st1, [])

/-- Group.js groupUpdateResponse: surfaces the success toast, clears the
in-edit flag for the id the server echoed back, triggers one full
collection reload via getGroups, and with the clean flag set by submitRow
empties the collection and raises the loading flag. -/
def groupUpdateResponse (st : GroupState) (respId : Nat) (cleanResults : Bool) :
    GroupState × List Effect :=
  let rows := setKey st.rows respId false
  let effs := [Effect.notify "Group Updated successfully" "success",
               Effect.getGroupsReq GROUP_URL]
  if cleanResults then
    ({ st with rows := rows, results := [], loading := true }, effs)
  else
    ({ st with rows := rows }, effs)

/-- Group.js deleteRow: one DELETE to the entity URL built from the
data-id attribute; no confirmation interaction precedes it. -/
def deleteRow (st : GroupState) (dataindex : Nat) : GroupState × List Effect :=
  (st, [Effect.deleteGroupReq (GROUP_URL ++ toString dataindex ++ "/")])

/-- Group.js deleteGroupResponse: schedules a timed fade-out that
removes the one matching table row, surfaces the server message as a
toast, and reloads the whole page. -/
def deleteGroupResponse (st : GroupState) (msg : String) (rowId : Nat) :
    GroupState × List Effect :=
  (st, [Effect.timedRemoveTableRow 1000 rowId,
        Effect.notify msg "success",
        Effect.reloadPage])

/-- Group.js groupSubmit: on passing validation issues one POST of the
pending fields; on failure only clears the success banner. -/
def groupSubmit (st : GroupState) : GroupState × List Effect :=
  let pr := handleValidation st.fields
  let st1 := { st with errors := pr.1 }
  if pr.2 then
    (st1, [Effect.postGroupReq GROUP_URL st1.fields])
  else
    ({ st1 with formSuccess := false }, [])

/-- Group.js groupSubmitResponse: shows the success banner and schedules
the delayed modal close. -/
def groupSubmitResponse (st : GroupState) (cleanResults : Bool) :
    GroupState × List Effect :=
  ({ st with formSuccess := true },
   [Effect.scheduleSubmitClose 3000 cleanResults])

/-- The callback groupSubmitResponse schedules: closes the modal, and
with the clean flag empties the collection and raises loading; either
way it refetches the collection from the first page. -/
def groupSubmitTimeout (st : GroupState) (cleanResults : Bool) :
    GroupState × List Effect :=
  if cleanResults then
    ({ st with modal := false, formSuccess := false, results := [],
               loading := true },
     [Effect.getGroupsReq GROUP_URL])
  else
    ({ st with modal := false, formSuccess := false },
     [Effect.getGroupsReq GROUP_URL])

/-- Events driving the pagination part of the Group controller: a
scroll notification from the window, or a collection response being
delivered to getGroupsData. -/
inductive GEvent where
  | scrollEv (atBottom : Bool) : GEvent
  | pageResp (b : Body) : GEvent
deriving DecidableEq, Repr

/-- Whether an effect is a collection GET handled by getGroupsData. -/
def isGroupsGet : Effect → Bool
  | .getGroupsReq _ => true
  | _ => false

/-- One step of the pagination trace machine: the state is paired with
the number of collection GETs currently in flight; a scroll adds the
requests handleScroll emits, a delivered response consumes one. -/
def stepG (p : GroupState × Nat) (ev : GEvent) : GroupState × Nat :=
  match ev with
  | .scrollEv ab =>
      let r := handleScroll p.1 ab
      (r.1, p.2 + (r.2.filter isGroupsGet).length)
  | .pageResp b => (getGroupsData p.1 b, p.2 - 1)

/-- Pagination invariant: at most one collection GET is in flight, and
while one is in flight the loading flag is raised. -/
def InvG (p : GroupState × Nat) : Prop :=
  p.2 ≤ 1 ∧ (p.2 = 1 → p.1.loading = true)

/-- Model of a JS article-shaped record as the Bookmark view handles it:
the raw article delivered by the server (title, blurb, cover_image keys)
and the display dictionary the view builds from it (header, caption, src
keys) share this one optional-field shape, with absent keys as none. -/
structure ArtObj where
  id : Option Nat := none
  title : Option String := none
  header : Option String := none
  altText : Option String := none
  caption : Option String := none
  blurb : Option String := none
  source : Option String := none
  slug : Option String := none
  category : Option String := none
  hash_tags : Option (List String) := none
  published_on : Option String := none
  cover_image : Option String := none
  src : Option String := none
deriving DecidableEq, Repr

/-- One element of the bookmark collection response: a record wrapping
the bookmarked article. -/
structure BItem where
  article : ArtObj
deriving DecidableEq, Repr

/-- The cookie jar the views read through universal-cookie; none means
the cookie is absent. -/
structure CookieJar where
  full_name : Option String := none
  token : Option String := none
  isChecked : Option String := none
  isSideOpen : Option String := none
deriving DecidableEq, Repr

/-- The React state of the Bookmark component (Bookmark.js constructor),
restricted to the fields its handlers read or write. -/
structure BookmarkState where
  newsPosts : List ArtObj := []
  domain : String := "domain=newscout"
  isLoading : Bool := true
  isSideOpen : Bool := true
  modal : Bool := false
  is_loggedin : Bool := false
  bookmark_ids : List ArtObj := []
  isChecked : Bool := false
  is_bookmark_empty : Bool := false
deriving DecidableEq, Repr

/-- JS Array.indexOf: the position of the first match or -1.  The source
compares fresh response objects against locally built dictionaries, and
for all inputs used here structural disagreement coincides with the
reference disagreement JS actually tests. -/
def jsIndexOf {α : Type} [DecidableEq α] (l : List α) (a : α) : Int :=
  match l.findIdx? (fun x => x = a) with
  | some i => (i : Int)
  | none => -1

/-- JS Array.splice removing count elements at start: a negative start
counts from the end, clamped at zero. -/
def jsSpliceRemove {α : Type} (l : List α) (start : Int) (count : Nat) : List α :=
  let s : Nat := if start < 0 then ((l.length : Int) + start).toNat else start.toNat
  l.take s ++ l.drop (s + count)

/-- The display dictionary getBookmarksArticles builds from a raw
article.  External library calls are abstracted: the moment date format
keeps the raw date string, and decodeURIComponent is the identity on the
inputs used here; JS string concatenation renders an absent operand as
the text undefined. -/
def mkNewsDict (a : ArtObj) : ArtObj :=
  { id := a.id,
    header := a.title,
    altText := a.title,
    caption := a.blurb,
    source := a.source,
    slug := some ("/news/article/" ++ a.slug.getD "undefined"),
    category := a.category,
    hash_tags := a.hash_tags,
    published_on := a.published_on,
    src := some ("http://images.newscout.in/unsafe/368x276/left/top/"
                   ++ a.cover_image.getD "undefined") }

/-- Whether a raw article passes the cover_image truthiness filter the
handler applies before displaying or accumulating it. -/
def coverTruthy (a : ArtObj) : Bool := strTruthy a.cover_image

/-- Bookmark.js getBookmarksArticles: builds the display list from the
cover-bearing articles of the response, appends those same raw articles
to the module-level article_array (threaded here explicitly as the first
argument and result), publishes that array as bookmark_ids, recomputes
the empty flag, and schedules the loading flag reset. -/
def getBookmarksArticles (arr : List ArtObj) (st : BookmarkState)
    (results : List BItem) : List ArtObj × BookmarkState × List Effect :=
  let kept := (results.filter (fun it => coverTruthy it.article)).map BItem.article
  let news_array := kept.map mkNewsDict
  let arr2 := arr ++ kept
  (arr2,
   { st with newsPosts := news_array,
             bookmark_ids := arr2,
             is_bookmark_empty := decide (news_array.length = 0) },
   [Effect.timedSetLoadingFalse 300])

/-- Iterating getBookmarksArticles over a sequence of response pages,
threading the module-level array and the component state. -/
def runBookmarkPages (arr : List ArtObj) (st : BookmarkState)
    (pages : List (List BItem)) : List ArtObj × BookmarkState :=
  match pages with
  | [] => (arr, st)
  | p :: ps =>
      let r := getBookmarksArticles arr st p
      runBookmarkPages r.1 r.2.1 ps

/-- Bookmark.js fetchArticleBookmark: one POST of the article id to the
bookmark-toggle endpoint. -/
def fetchArticleBookmark (st : BookmarkState) (articleId : Nat) :
    BookmarkState × List Effect :=
  (st, [Effect.postBookmarkReq (ARTICLE_BOOKMARK_URL ++ "?" ++ st.domain) articleId])

/-- Bookmark.js getArticleId: with the full_name cookie present fires
the bookmark-toggle POST, otherwise opens the auth modal. -/
def getArticleId (ck : CookieJar) (st : BookmarkState) (articleId : Nat) :
    BookmarkState × List Effect :=
  if strTruthy ck.full_name then
    fetchArticleBookmark st articleId
  else
    ({ st with modal := true }, [])

/-- Bookmark.js articleBookmarkResponse: looks the echoed raw article up
in the display list with indexOf, splices one element out at that
position, and with the full_name cookie present refetches the whole
bookmark collection. -/
def articleBookmarkResponse (ck : CookieJar) (st : BookmarkState)
    (respArticle : ArtObj) : BookmarkState × List Effect :=
  let idx := jsIndexOf st.newsPosts respArticle
  let posts := jsSpliceRemove st.newsPosts idx 1
  let st1 := { st with newsPosts := posts }
  if strTruthy ck.full_name then
    (st1, [Effect.getBookmarksReq (ALL_ARTICLE_BOOKMARK_URL ++ "?" ++ st.domain)])
  else
    (st1, [])

/-- Bookmark.js componentDidMount: always fetches the menus; with the
full_name cookie present marks the session logged in and fetches the
bookmark collection, otherwise hard-redirects to the home view; then
mirrors the theme and sidebar cookies into state and applies the theme
stylesheet. -/
def bookmarkDidMount (ck : CookieJar) (st : BookmarkState) :
    BookmarkState × List Effect :=
  let menusEff := Effect.getMenusReq (MENUS_URL ++ "?" ++ st.domain)
  let branch : BookmarkState × List Effect :=
    if strTruthy ck.full_name then
      ({ st with is_loggedin := true },
       [Effect.getBookmarksReq (ALL_ARTICLE_BOOKMARK_URL ++ "?" ++ st.domain)])
    else
      (st, [Effect.redirect "/"])
  let st2 := { branch.1 with isChecked := strTruthy ck.isChecked,
                             isSideOpen := strTruthy ck.isSideOpen }
  (st2, menusEff :: branch.2 ++ [Effect.themeDom (strTruthy ck.isChecked)])

/-- Identifier injected into the subscription page template; outside the
provided sources, modelled as a fixed id string. -/
def SUB_PAGE_ID : String := "7"

/-- The React state of the SubscriptionDetails component, restricted to
the form fields; the id starts as the empty string and later holds the
number the server returned, so it is modelled as the string JS would
render into the form data. -/
structure SubState where
  isSideOpen : Bool := true
  id : String := ""
  email : String := ""
  subs_type : String := "Basic"
  autoRenew : String := "Yes"
  payement_mode : String := "Basic"
  createdOn : String := ""
  isChecked : Bool := false
deriving DecidableEq, Repr

/-- SubscriptionDetails.js submitForm: one POST of the form data
(subs_type, id, auto_renew) to the subscription endpoint. -/
def submitForm (st : SubState) : SubState × List Effect :=
  (st, [Effect.postSubscriptionReq (SUBSCRIPTION_URL ++ SUB_PAGE_ID ++ "/")
          st.subs_type st.id st.autoRenew])

/-- SubscriptionDetails.js renderResponse: a results field loosely equal
to the string success yields the success toast, anything else the error
toast; state is untouched either way.  A non-string results value never
compares loosely equal to that string, so it is modelled as none. -/
def renderResponse (st : SubState) (results : Option String) :
    SubState × List Effect :=
  if results = some "success" then
    (st, [Effect.notify "Subscription Updated successfully!" "success"])
  else
    (st, [Effect.notify "Something went wrong!" "error"])

/-- Fixture: a row whose category holds one server-shaped item and whose
campaign is null, for exercising the edit and cancel handlers. -/
def c3st : GroupState :=
  { results := [{ id := some 1,
                  category := some (.arrV [{ id := some 2, name := some "A" }]),
                  campaign := some .nullV,
                  is_active := some (.boolV true) }] }

/-- Fixture: the state after editRow immediately followed by cancelRow
on the single row of c3st. -/
def c3run : Option GroupState :=
  (editRow c3st 0 1).map (fun s => cancelRow s 0 1)

/-- Fixture: a fields mapping whose category is an empty selection list
and whose campaign is a populated option. -/
def c2cx : RowRec :=
  { category := some (.arrV []),
    campaign := some (.objV { value := some 1, label := some "C", name := some "C" }) }

/-- Fixture: a fully populated fields mapping for an existing row. -/
def wFields4 : RowRec :=
  { id := some 5,
    category := some (.arrV [{ value := some 2, label := some "A", name := some "A" }]),
    campaign := some (.objV { value := some 9, label := some "C", name := some "C" }),
    is_active := some (.boolV true) }

/-- Fixture: a controller state holding the populated pending fields. -/
def wSt4 : GroupState := { fields := wFields4 }

/-- Fixture: a controller state with one loaded row, no load in flight
and a non-null next cursor. -/
def wSt1 : GroupState :=
  { results := [{ id := some 1 }], next := some "/api/v1/groups/?page=2" }

/-- Fixture: a controller state with one loaded row. -/
def c6st : GroupState := { results := [{ id := some 1 }] }

/-- Fixture: a raw bookmarked article with a cover image. -/
def artA : ArtObj :=
  { id := some 1, title := some "Alpha", blurb := some "a", source := some "s",
    slug := some "alpha", category := some "c", hash_tags := some [],
    published_on := some "2020-01-01", cover_image := some "a.jpg" }

/-- Fixture: a second raw bookmarked article with a cover image. -/
def artB : ArtObj :=
  { id := some 2, title := some "Beta", blurb := some "b", source := some "s",
    slug := some "beta", category := some "c", hash_tags := some [],
    published_on := some "2020-01-02", cover_image := some "b.jpg" }

/-- Fixture: an authenticated cookie jar. -/
def ckAuth : CookieJar := { full_name := some "User", token := some "t" }

/-- Fixture: the Bookmark view displaying the two article cards. -/
def c7st : BookmarkState := { newsPosts := [mkNewsDict artA, mkNewsDict artB] }

/-- Fixture: a bookmark response item whose article has no cover image. -/
def c9item : BItem := ⟨{ id := some 3, title := some "T" }⟩

/-- Fixture: a bookmark response item whose article has a cover image. -/
def c9covered : BItem := ⟨artA⟩

/-- The articles of one response page that survive the cover filter. -/
def keptArticles (p : List BItem) : List ArtObj :=
  (p.filter (fun it => coverTruthy it.article)).map BItem.article

/-- Helper: looking up the written key in a rows map updated through an
existing entry yields the written value. -/
theorem getKey_map_overwrite (k : Nat) (v : Bool) :
    ∀ (m : List (Nat × Bool)), m.any (fun p => p.1 = k) = true →
      getKey (m.map (fun p => if p.1 = k then (k, v) else p)) k = v := by
  intro m
  induction m with
  | nil => intro h; simp at h
  | cons p ps ih =>
      intro h
      by_cases hp : p.1 = k
      · simp [getKey, hp]
      · simp only [List.map_cons, if_neg hp]
        have hh : ps.any (fun q => q.1 = k) = true := by
          simp [List.any_cons, hp] at h
          simpa using h
        simpa [getKey, List.find?_cons_of_neg, hp] using ih hh

/-- Helper: looking up the appended key in a rows map without it yields
the appended value. -/
theorem getKey_append_new (k : Nat) (v : Bool) :
    ∀ (m : List (Nat × Bool)), m.any (fun p => p.1 = k) = false →
      getKey (m ++ [(k, v)]) k = v := by
  intro m
  induction m with
  | nil => intro _; simp [getKey]
  | cons p ps ih =>
      intro h
      simp [List.any_cons] at h
      simpa [getKey, List.find?_cons_of_neg, h.1] using ih (by simpa using h.2)

/-- Helper: writing a key into the rows map and reading it back yields
the written value. -/
theorem getKey_setKey (m : List (Nat × Bool)) (k : Nat) (v : Bool) :
    getKey (setKey m k v) k = v := by
  unfold setKey
  by_cases h : m.any (fun p => p.1 = k) = true
  · simpa [h] using getKey_map_overwrite k v m h
  · have h2 : m.any (fun p => p.1 = k) = false := by
      cases hx : m.any (fun p => p.1 = k)
      · rfl
      · exact absurd hx h
    simpa [h2] using getKey_append_new k v m h2

/-- Helper: mapping over a list updated at a position with an element
agreeing under the map leaves the mapped list unchanged. -/
theorem map_set_same {α β : Type} (f : α → β) :
    ∀ (l : List α) (i : Nat) (a b : α), l.get? i = some a → f b = f a →
      (l.set i b).map f = l.map f := by
  intro l
  induction l with
  | nil => intro i a b h _; simp at h
  | cons x xs ih =>
      intro i a b h hf
      cases i with
      | zero =>
          simp only [List.get?_cons_zero, Option.some.injEq] at h
          subst h
          simp [List.set, hf]
      | succ n =>
          simp only [List.get?_cons_succ] at h
          simp [List.set, ih n a b h hf]

/-- Helper: updating a list at one position leaves lookups at every
other position unchanged. -/
theorem get?_set_of_ne {α : Type} (a : α) :
    ∀ (l : List α) (i j : Nat), i ≠ j → (l.set i a).get? j = l.get? j := by
  intro l
  induction l with
  | nil => intro i j _; simp
  | cons x xs ih =>
      intro i j h
      cases i with
      | zero =>
          cases j with
          | zero => exact absurd rfl h
          | succ m => simp [List.set]
      | succ n =>
          cases j with
          | zero => simp [List.set]
          | succ m =>
              simp only [List.set, List.get?_cons_succ]
              exact ih n m (by omega)

/-- Helper: updating a list within bounds makes the lookup at that
position yield the new element. -/
theorem get?_set_self {α : Type} (a : α) :
    ∀ (l : List α) (i : Nat), i < l.length → (l.set i a).get? i = some a := by
  intro l
  induction l with
  | nil => intro i h; simp at h
  | cons x xs ih =>
      intro i h
      cases i with
      | zero => simp [List.set]
      | succ n =>
          simp only [List.set, List.get?_cons_succ]
          exact ih n (by simpa using h)

/-- Helper: the in-place rewrite editRow performs preserves the id and
the is_active flag of the row. -/
theorem editRowRec_preserves (row nr : RowRec) (h : editRowRec row = some nr) :
    nr.id = row.id ∧ nr.is_active = row.is_active := by
  simp only [editRowRec] at h
  rcases Option.map_eq_some'.mp h with ⟨sc, _, hfn⟩
  subst hfn
  exact ⟨rfl, rfl⟩

/-- Helper: the scroll handler does nothing while a load is in flight
or when the next cursor is falsy. -/
theorem handleScroll_noop (st : GroupState) (ab : Bool)
    (h : st.loading = true ∨ strTruthy st.next = false) :
    handleScroll st ab = (st, []) := by
  unfold handleScroll
  rcases h with h | h <;> by_cases hab : ab <;> simp [hab, h]

/-- Helper: one step of the pagination trace machine preserves the
at-most-one-in-flight invariant. -/
theorem stepG_preserves (p : GroupState × Nat) (ev : GEvent) (h : InvG p) :
    InvG (stepG p ev) := by
  obtain ⟨h1, h2⟩ := h
  cases ev with
  | pageResp b =>
      refine ⟨?_, ?_⟩
      · show p.2 - 1 ≤ 1
        omega
      · intro hn
        exact absurd (show p.2 - 1 = 1 from hn) (by omega)
  | scrollEv ab =>
      by_cases hfire : ab = true ∧ p.1.loading = false ∧ strTruthy p.1.next = true
      · obtain ⟨hab, hld, hnx⟩ := hfire
        subst hab
        have hs : handleScroll p.1 true = getNext p.1 := by
          unfold handleScroll
          simp [hld, hnx]
        have hz : p.2 = 0 := by
          by_contra hnz
          have h21 : p.2 = 1 := by omega
          exact Bool.false_ne_true (hld ▸ h2 h21)
        refine ⟨?_, ?_⟩
        · show p.2 + ((handleScroll p.1 true).2.filter isGroupsGet).length ≤ 1
          rw [hs]
          show p.2 + 1 ≤ 1
          omega
        · intro _
          show ((handleScroll p.1 true).1).loading = true
          rw [hs]
          rfl
      · have hnoop : handleScroll p.1 ab = (p.1, []) := by
          by_cases hab : ab = true
          · subst hab
            apply handleScroll_noop
            by_cases hl : p.1.loading = true
            · exact Or.inl hl
            · by_cases hx : strTruthy p.1.next = false
              · exact Or.inr hx
              · exact absurd ⟨rfl, by simpa using hl, by simpa using hx⟩ hfire
          · have hf : ab = false := by simpa using hab
            subst hf
            rfl
        have hlen : ((handleScroll p.1 ab).2.filter isGroupsGet).length = 0 := by
          rw [hnoop]
          rfl
        refine ⟨?_, ?_⟩
        · show p.2 + ((handleScroll p.1 ab).2.filter isGroupsGet).length ≤ 1
          rw [hlen]
          omega
        · intro hn
          have hn2 : p.2 + ((handleScroll p.1 ab).2.filter isGroupsGet).length = 1 := hn
          rw [hlen] at hn2
          show ((handleScroll p.1 ab).1).loading = true
          rw [hnoop]
          exact h2 (by omega)

/-- Helper: the pagination invariant is preserved along every trace. -/
theorem foldG_preserves (evs : List GEvent) :
    ∀ p : GroupState × Nat, InvG p → InvG (List.foldl stepG p evs) := by
  induction evs with
  | nil => intro p h; simpa using h
  | cons e es ih => intro p h; exact ih _ (stepG_preserves p e h)

/-- C1: with a null next cursor or a load already in flight the scroll
handler performs no transport call and leaves the state alone; otherwise
it issues exactly one GET for the stored next URL and raises the loading
flag, the delivered page is appended to the collection with the cursors
updated and the flag cleared, and along every scroll-and-response trace
at most one pagination request is ever in flight. -/
theorem c1_scroll_pagination :
    (∀ (st : GroupState) (ab : Bool),
        (st.loading = true ∨ strTruthy st.next = false) →
        handleScroll st ab = (st, [])) ∧
    (∀ st : GroupState, st.loading = false → strTruthy st.next = true →
        handleScroll st true =
          ({ st with loading := true, page := st.page + 1 },
           [Effect.getGroupsReq (st.next.getD "")])) ∧
    (∀ (st : GroupState) (rs : List RowRec) (nx pv : Option String),
        getGroupsData st (Body.page rs nx pv) =
          { st with results := st.results ++ rs, next := nx, previous := pv,
                    loading := false }) ∧
    (∀ (p : GroupState × Nat) (evs : List GEvent),
        InvG p → InvG (List.foldl stepG p evs)) := by
  refine ⟨handleScroll_noop, ?_, ?_, ?_⟩
  · intro st h1 h2
    unfold handleScroll getNext
    simp [h1, h2]
  · intro st rs nx pv
    rfl
  · intro p evs h
    exact foldG_preserves evs p h

/-- Witness for C1 at a concrete state: the guard hypotheses hold, one
GET is issued, and the invariant holds after a scroll followed by a
response. -/
theorem c1_witness :
    wSt1.loading = false ∧ strTruthy wSt1.next = true ∧
    handleScroll wSt1 true =
      ({ wSt1 with loading := true, page := wSt1.page + 1 },
       [Effect.getGroupsReq (wSt1.next.getD "")]) ∧
    InvG (List.foldl stepG (wSt1, 0)
      [GEvent.scrollEv true, GEvent.pageResp (Body.page [] none none)]) := by
  refine ⟨rfl, by decide, ?_, ?_⟩
  · exact c1_scroll_pagination.2.1 wSt1 rfl (by decide)
  · exact c1_scroll_pagination.2.2.2 (wSt1, 0) _
      ⟨by decide, fun h => absurd h (by decide)⟩

/-- C2 counterexample: a fields mapping whose category is an empty
selection list, an empty value of the required field, passes validation
with no error entry for category, because a JS empty array is truthy. -/
theorem c2_counterexample :
    c2cx.category = some (FieldVal.arrV []) ∧
    (handleValidation c2cx).1 = { } ∧
    (handleValidation c2cx).2 = true := by
  decide

/-- C2 as amended: validation flags each required field whose value is
absent or JS-falsy and only those, the empty mapping earns an entry for
both required fields, and a mapping with both fields truthy, in
particular fully populated, yields the empty error mapping. -/
theorem c2_amended_validation :
    ((handleValidation { }).1.category = some "This fields is required" ∧
     (handleValidation { }).1.campaign = some "This fields is required" ∧
     (handleValidation { }).2 = false) ∧
    (∀ f : RowRec, optTruthy f.category = false →
        (handleValidation f).1.category = some "This fields is required" ∧
        (handleValidation f).2 = false) ∧
    (∀ f : RowRec, optTruthy f.campaign = false →
        (handleValidation f).1.campaign = some "This fields is required" ∧
        (handleValidation f).2 = false) ∧
    (∀ f : RowRec, optTruthy f.category = true → optTruthy f.campaign = true →
        (handleValidation f).1 = { } ∧ (handleValidation f).2 = true) := by
  refine ⟨by decide, ?_, ?_, ?_⟩
  · intro f h
    unfold handleValidation
    simp [h]
  · intro f h
    unfold handleValidation
    simp [h]
  · intro f h1 h2
    unfold handleValidation
    simp [h1, h2]

/-- Witness for the amended C2 at a concrete populated mapping. -/
theorem c2_witness :
    optTruthy wFields4.category = true ∧ optTruthy wFields4.campaign = true ∧
    (handleValidation wFields4).1 = { } ∧ (handleValidation wFields4).2 = true := by
  refine ⟨by decide, by decide, ?_⟩
  exact c2_amended_validation.2.2.2 wFields4 (by decide) (by decide)

/-- C5: deleteRow issues exactly one DELETE whose URL embeds the row id
and nothing else, and the success handler schedules the removal of
exactly one table row, surfaces the server message and reloads the page,
with no confirmation interaction anywhere. -/
theorem c5_delete_row :
    (∀ (st : GroupState) (d : Nat),
        deleteRow st d =
          (st, [Effect.deleteGroupReq (GROUP_URL ++ toString d ++ "/")])) ∧
    (∀ d : Nat, ∃ pre post : String,
        GROUP_URL ++ toString d ++ "/" = pre ++ toString d ++ post) ∧
    (∀ (st : GroupState) (msg : String) (rid : Nat),
        deleteGroupResponse st msg rid =
          (st, [Effect.timedRemoveTableRow 1000 rid,
                Effect.notify msg "success",
                Effect.reloadPage])) := by
  refine ⟨fun st d => rfl, fun d => ⟨GROUP_URL, "/", rfl⟩, fun st msg rid => rfl⟩

/-- C10: the subscription update response handler leaves the form state
untouched, surfaces the success toast exactly when the results field is
the string success, and the error toast otherwise. -/
theorem c10_render_response :
    (∀ (st : SubState) (r : Option String), (renderResponse st r).1 = st) ∧
    (∀ (st : SubState) (r : Option String),
        (renderResponse st r).2 =
          [Effect.notify "Subscription Updated successfully!" "success"] ↔
        r = some "success") ∧
    (∀ (st : SubState) (r : Option String), r ≠ some "success" →
        (renderResponse st r).2 =
          [Effect.notify "Something went wrong!" "error"]) := by
  refine ⟨?_, ?_, ?_⟩
  · intro st r
    unfold renderResponse
    by_cases h : r = some "success" <;> simp [h]
  · intro st r
    unfold renderResponse
    by_cases h : r = some "success" <;> simp [h]
  · intro st r h
    unfold renderResponse
    simp [h]

/-- Witness for C10 at a concrete state and a non-success response. -/
theorem c10_witness :
    (some "failure" : Option String) ≠ some "success" ∧
    (renderResponse { } (some "failure")).2 =
      [Effect.notify "Something went wrong!" "error"] ∧
    (renderResponse { } (some "failure")).1 = ({ } : SubState) := by
  refine ⟨by decide, ?_, ?_⟩
  · exact c10_render_response.2.2 { } (some "failure") (by decide)
  · exact c10_render_response.1 { } (some "failure")

/-- C3 counterexample: on a state with one server-shaped row, editRow
immediately followed by cancelRow leaves both the collection and the
FormFields mapping different from their values before editRow, because
editRow rewrites the aliased row object in place and cancelRow restores
neither it nor the fields. -/
theorem c3_counterexample :
    c3run ≠ none ∧
    c3run.map GroupState.results ≠ some c3st.results ∧
    c3run.map GroupState.fields ≠ some c3st.fields := by
  decide

/-- C3 as amended: editRow followed immediately by cancelRow clears the
in-edit flag and preserves the collection length, the row ids, the
is_active flags and every untouched row, but the edited row has been
rewritten in place into select-option form and the FormFields mapping is
left holding that rewritten row instead of being restored. -/
theorem c3_amended_edit_cancel :
    ∀ (st : GroupState) (i d : Nat) (row : RowRec) (st2 : GroupState),
      st.results.get? i = some row → editRow st i d = some st2 →
      (getKey (cancelRow st2 i d).rows d = false ∧
       (cancelRow st2 i d).results.map RowRec.id = st.results.map RowRec.id ∧
       (cancelRow st2 i d).results.map RowRec.is_active =
         st.results.map RowRec.is_active ∧
       (∀ j : Nat, j ≠ i →
          (cancelRow st2 i d).results.get? j = st.results.get? j) ∧
       (∃ nr : RowRec, editRowRec row = some nr ∧
          (cancelRow st2 i d).results.get? i = some nr ∧
          (cancelRow st2 i d).fields = nr)) := by
  intro st i d row st2 hget hedit
  unfold editRow at hedit
  rw [hget] at hedit
  rcases Option.map_eq_some'.mp hedit with ⟨nr, hnr, hst2⟩
  subst hst2
  have hpres := editRowRec_preserves row nr hnr
  have hres : (cancelRow
      { st with rows := setKey st.rows d true,
                results := st.results.set i nr,
                fields := nr } i d).results = st.results.set i nr := rfl
  refine ⟨?_, ?_, ?_, ?_, ?_⟩
  · exact getKey_setKey _ d false
  · rw [hres]
    exact map_set_same RowRec.id st.results i row nr hget hpres.1
  · rw [hres]
    exact map_set_same RowRec.is_active st.results i row nr hget hpres.2
  · intro j hj
    rw [hres]
    exact get?_set_of_ne nr st.results i j (fun he => hj he.symm)
  · refine ⟨nr, hnr, ?_, rfl⟩
    rw [hres]
    have hlt : i < st.results.length := (List.get?_eq_some.mp hget).1
    exact get?_set_self nr st.results i hlt

/-- Witness for the amended C3 on the concrete fixture state. -/
theorem c3_witness :
    c3st.results.get? 0 = some
      ({ id := some 1,
         category := some (.arrV [{ id := some 2, name := some "A" }]),
         campaign := some .nullV,
         is_active := some (.boolV true) } : RowRec) ∧
    (∃ st2 : GroupState, editRow c3st 0 1 = some st2 ∧
       getKey (cancelRow st2 0 1).rows 1 = false ∧
       (cancelRow st2 0 1).results.map RowRec.id =
         c3st.results.map RowRec.id) := by
  refine ⟨by decide, ?_⟩
  rcases he : editRow c3st 0 1 with _ | st2
  · exact absurd he (by decide)
  · have h := c3_amended_edit_cancel c3st 0 1
      { id := some 1,
        category := some (.arrV [{ id := some 2, name := some "A" }]),
        campaign := some .nullV,
        is_active := some (.boolV true) } st2 (by decide) he
    exact ⟨st2, rfl, h.1, h.2.1⟩

/-- C4: when the pending fields pass validation, submitRow issues
exactly one PUT of the full field set (campaign, category, id,
is_active) to the entity URL built from the pending id, and the success
handler clears the in-edit flag for the echoed id, triggers exactly one
full collection reload and surfaces the success toast. -/
theorem c4_submit_row :
    ∀ (st : GroupState) (items : List JsObj),
      (handleValidation st.fields).2 = true →
      st.fields.category = some (FieldVal.arrV items) →
      (submitRow st = some ({ st with errors := (handleValidation st.fields).1 },
          [Effect.putGroupReq (GROUP_URL ++ idString st.fields.id ++ "/")
            { campaign := fvValue st.fields.campaign,
              category := items.map JsObj.value,
              id := st.fields.id,
              is_active := st.fields.is_active }]) ∧
       (∀ (st2 : GroupState) (rid : Nat),
          groupUpdateResponse st2 rid true =
            ({ st2 with rows := setKey st2.rows rid false, results := [],
                        loading := true },
             [Effect.notify "Group Updated successfully" "success",
              Effect.getGroupsReq GROUP_URL])) ∧
       (∀ (st2 : GroupState) (rid : Nat),
          getKey (groupUpdateResponse st2 rid true).1.rows rid = false)) := by
  intro st items hv hc
  refine ⟨?_, ?_, ?_⟩
  · simp only [submitRow, hv, hc, if_true]
  · intro st2 rid
    rfl
  · intro st2 rid
    exact getKey_setKey st2.rows rid false

/-- Witness for C4 on the concrete populated fixture state. -/
theorem c4_witness :
    (handleValidation wSt4.fields).2 = true ∧
    wSt4.fields.category =
      some (FieldVal.arrV [{ value := some 2, label := some "A", name := some "A" }]) ∧
    submitRow wSt4 ≠ none := by
  refine ⟨by decide, by decide, ?_⟩
  have h := (c4_submit_row wSt4
      [{ value := some 2, label := some "A", name := some "A" }]
      (by decide) (by decide)).1
  rw [h]
  intro hx
  cases hx

/-- C6 counterexample: a successful update, which the claim does not
list among the explicit resets, also removes all rows already present
from the collection. -/
theorem c6_counterexample :
    (groupUpdateResponse c6st 1 true).1.results = [] ∧ c6st.results ≠ [] := by
  decide

/-- C6 as amended: the resets are a search submission, a successful
create and a successful update, each of which clears the collection and
refetches from the first page; every other operation only appends:
completed fetches append the delivered page, scrolling, cancelling,
deleting, query edits and submissions keep the rows, and editRow keeps
the length and the id sequence of the collection while rewriting only
the edited row in place. -/
theorem c6_amended_append_only :
    (∀ (st : GroupState) (rs : List RowRec) (nx pv : Option String),
        (getGroupsData st (Body.page rs nx pv)).results = st.results ++ rs) ∧
    (∀ (st : GroupState) (b : Body),
        ∃ t : List RowRec, (getGroupsData st b).results = st.results ++ t) ∧
    (∀ (st : GroupState) (ab : Bool),
        (handleScroll st ab).1.results = st.results) ∧
    (∀ st : GroupState, (getNext st).1.results = st.results) ∧
    (∀ (st : GroupState) (i d : Nat),
        (cancelRow st i d).results = st.results) ∧
    (∀ (st : GroupState) (d : Nat), (deleteRow st d).1.results = st.results) ∧
    (∀ (st : GroupState) (v : String),
        (handleQueryChange st v).results = st.results) ∧
    (∀ st : GroupState, (groupSubmit st).1.results = st.results) ∧
    (∀ (st : GroupState) (c : Bool),
        (groupSubmitResponse st c).1.results = st.results) ∧
    (∀ (st : GroupState) (i d : Nat) (st2 : GroupState),
        editRow st i d = some st2 →
        st2.results.map RowRec.id = st.results.map RowRec.id ∧
        st2.results.length = st.results.length) ∧
    (∀ st : GroupState, (handleKeyPress st "Enter").1.results = []) ∧
    (∀ st : GroupState, (groupSubmitTimeout st true).1.results = []) := by
  refine ⟨fun st rs nx pv => rfl, ?_, ?_, fun st => rfl, fun st i d => rfl,
          fun st d => rfl, fun st v => rfl, ?_, fun st c => rfl, ?_,
          fun st => rfl, fun st => rfl⟩
  · intro st b
    cases b with
    | page rs nx pv => exact ⟨rs, rfl⟩
    | arr items => exact ⟨[], by simp [getGroupsData]⟩
  · intro st ab
    unfold handleScroll getNext
    by_cases hab : ab
    · by_cases hg : ((!st.loading) && strTruthy st.next) = true <;> simp [hab, hg]
    · simp [hab]
  · intro st
    unfold groupSubmit
    by_cases h : (handleValidation st.fields).2 = true
    · simp [h]
    · simp [h]
  · intro st i d st2 hedit
    unfold editRow at hedit
    rcases hg : st.results.get? i with _ | row
    · rw [hg] at hedit
      cases hedit
    · rw [hg] at hedit
      rcases Option.map_eq_some'.mp hedit with ⟨nr, hnr, hst2⟩
      subst hst2
      have hpres := editRowRec_preserves row nr hnr
      constructor
      · exact map_set_same RowRec.id st.results i row nr hg hpres.1
      · simp

/-- Witness for the amended C6: the editRow conjunct instantiated at
the concrete fixture state. -/
theorem c6_witness :
    (∃ st2 : GroupState, editRow c3st 0 1 = some st2 ∧
       st2.results.map RowRec.id = c3st.results.map RowRec.id) ∧
    (getGroupsData c6st (Body.page [{ id := some 2 }] none none)).results =
      c6st.results ++ [{ id := some 2 }] := by
  constructor
  · rcases he : editRow c3st 0 1 with _ | st2
    · exact absurd he (by decide)
    · have h := (c6_amended_append_only.2.2.2.2.2.2.2.2.2.1 c3st 0 1 st2 he).1
      exact ⟨st2, rfl, h⟩
  · exact c6_amended_append_only.1 c6st [{ id := some 2 }] none none

/-- C7 as a code bug, evaluated at a failing input: with two article
cards displayed, toggling the bookmark of the first issues the expected
mutation, but the response handler looks the echoed raw article up among
the reshaped display dictionaries (always a miss), so splicing at -1
removes the last card: the toggled card for artA stays on screen and the
unrelated card for artB is removed. -/
theorem c7_wrong_card_removed :
    getArticleId ckAuth c7st 1 =
      (c7st, [Effect.postBookmarkReq (ARTICLE_BOOKMARK_URL ++ "?" ++ c7st.domain) 1]) ∧
    jsIndexOf c7st.newsPosts artA = -1 ∧
    (articleBookmarkResponse ckAuth c7st artA).1.newsPosts = [mkNewsDict artA] ∧
    mkNewsDict artA ≠ mkNewsDict artB := by
  decide

/-- C8: with the full_name cookie absent at mount, the Bookmark view
issues only the menus fetch, hard-redirects to the home view and never
fetches the bookmark collection; with the cookie present it marks the
session logged in, fetches the collection and never redirects, so
authentication is detected exactly by that cookie. -/
theorem c8_mount_auth_gate :
    (∀ (ck : CookieJar) (st : BookmarkState), ck.full_name = none →
        (bookmarkDidMount ck st).2 =
          [Effect.getMenusReq (MENUS_URL ++ "?" ++ st.domain),
           Effect.redirect "/",
           Effect.themeDom (strTruthy ck.isChecked)] ∧
        (∀ u : String,
           Effect.getBookmarksReq u ∉ (bookmarkDidMount ck st).2)) ∧
    (∀ (ck : CookieJar) (st : BookmarkState), strTruthy ck.full_name = true →
        (bookmarkDidMount ck st).2 =
          [Effect.getMenusReq (MENUS_URL ++ "?" ++ st.domain),
           Effect.getBookmarksReq (ALL_ARTICLE_BOOKMARK_URL ++ "?" ++ st.domain),
           Effect.themeDom (strTruthy ck.isChecked)] ∧
        (∀ u : String, Effect.redirect u ∉ (bookmarkDidMount ck st).2) ∧
        (bookmarkDidMount ck st).1.is_loggedin = true) := by
  constructor
  · intro ck st h
    have hf : strTruthy ck.full_name = false := by
      rw [h]
      rfl
    constructor
    · unfold bookmarkDidMount
      simp [hf]
    · intro u
      unfold bookmarkDidMount
      simp [hf]
  · intro ck st h
    refine ⟨?_, ?_, ?_⟩
    · unfold bookmarkDidMount
      simp [h]
    · intro u
      unfold bookmarkDidMount
      simp [h]
    · unfold bookmarkDidMount
      simp [h]

/-- Witness for C8 with an empty cookie jar: the redirect happens and no
bookmark fetch is issued. -/
theorem c8_witness :
    ({ } : CookieJar).full_name = none ∧
    (bookmarkDidMount { } { }).2 =
      [Effect.getMenusReq (MENUS_URL ++ "?" ++ ({ } : BookmarkState).domain),
       Effect.redirect "/",
       Effect.themeDom (strTruthy ({ } : CookieJar).isChecked)] := by
  exact ⟨rfl, (c8_mount_auth_gate.1 { } { } rfl).1⟩

/-- C9 counterexample: one fetch whose single result item has no cover
image leaves both the module-level array and bookmark_ids empty, not
equal to the concatenation of the result lists, which holds that
article. -/
theorem c9_counterexample :
    (getBookmarksArticles [] { } [c9item]).1 = [] ∧
    (getBookmarksArticles [] { } [c9item]).2.1.bookmark_ids = [] ∧
    [c9item.article] ≠ ([] : List ArtObj) := by
  decide

/-- C9 as amended: the module-level article_array is never cleared and
every call of getBookmarksArticles appends the cover-image-bearing
articles of its page, so after any sequence of fetches the array, and
after at least one fetch the bookmark_ids state, equal the initial array
followed by the concatenation of the cover-bearing articles of every
page, duplicates included. -/
theorem c9_amended_accumulation :
    ∀ (pages : List (List BItem)) (arr : List ArtObj) (st : BookmarkState),
      (runBookmarkPages arr st pages).1 =
        arr ++ (pages.map keptArticles).flatten ∧
      (pages ≠ [] →
        (runBookmarkPages arr st pages).2.bookmark_ids =
          arr ++ (pages.map keptArticles).flatten) := by
  intro pages
  induction pages with
  | nil =>
      intro arr st
      exact ⟨by simp [runBookmarkPages], fun h => absurd rfl h⟩
  | cons p ps ih =>
      intro arr st
      have hrun : runBookmarkPages arr st (p :: ps) =
          runBookmarkPages (arr ++ keptArticles p)
            ((getBookmarksArticles arr st p).2.1) ps := rfl
      have hbk : ((getBookmarksArticles arr st p).2.1).bookmark_ids =
          arr ++ keptArticles p := rfl
      have hih := ih (arr ++ keptArticles p) ((getBookmarksArticles arr st p).2.1)
      constructor
      · rw [hrun, hih.1]
        simp [List.append_assoc]
      · intro _
        cases ps with
        | nil =>
            rw [hrun]
            unfold runBookmarkPages
            rw [hbk]
            simp
        | cons q qs =>
            rw [hrun, hih.2 (by simp)]
            simp [List.append_assoc]

/-- Witness for the amended C9: two concrete pages, one covered and one
coverless item, accumulate exactly the covered article. -/
theorem c9_witness :
    ([[c9covered], [c9item]] : List (List BItem)) ≠ [] ∧
    (runBookmarkPages [] { } [[c9covered], [c9item]]).1 = [artA] ∧
    (runBookmarkPages [] { } [[c9covered], [c9item]]).2.bookmark_ids = [artA] := by
  refine ⟨by decide, ?_, ?_⟩
  · have h := (c9_amended_accumulation [[c9covered], [c9item]] [] { }).1
    rw [h]
    decide
  · have h := (c9_amended_accumulation [[c9covered], [c9item]] [] { }).2 (by decide)
    rw [h]
    decide

end Newscout
